import Mathlib

/-!
Verification of `src/youtube_summarizer.py`.

The program is a linear pipeline: fetch a transcript over HTTP, join the
transcript segments into one string, send that string to a chat-completion
endpoint, and print the summary.  The embedding below models Python values
returned by `response.json()` as an inductive `Json` type, Python exceptions
as an explicit `Except PyError` result, the two outbound network calls as
oracle parameters (`FetchOutcome`, `ChatOutcome`) describing what the remote
endpoint does, and the observable behaviour of each function as a trace of
`Event`s (lines printed, network calls issued).
-/

set_option autoImplicit false

namespace YoutubeSummarizer

/-- Python values that can result from parsing a JSON body.  A JSON `null`
body makes `response.json()` return Python `None`; absence/`None` is modelled
by `Option` at the call sites, so `Json` itself has no null constructor. -/
inductive Json where
  | bool (b : Bool)
  | num (n : Int)
  | str (s : String)
  | arr (elems : List Json)
  | obj (fields : List (String × Json))

/-- Python truthiness (`if x:` / `not x`): `False`, `0`, `""`, `[]`, `{}`
are falsy, everything else is truthy. -/
def Json.truthy : Json → Bool
  | .bool b => b
  | .num n => n != 0
  | .str s => s != ""
  | .arr es => !es.isEmpty
  | .obj fs => !fs.isEmpty

/-- The Python exceptions the modelled code can raise:
`KeyError` from `segment['text']` / `data['transcripts']` on a dict missing
the key, and `TypeError` from subscripting or iterating a value of the wrong
type or concatenating a non-string to a string. -/
inductive PyError where
  | keyError (key : String)
  | typeError
deriving DecidableEq, Repr

/-- Python subscripting `j[k]` with a string key: a dict yields the value or
raises `KeyError`; every other modelled value raises `TypeError`. -/
def Json.getItem : Json → String → Except PyError Json
  | .obj fields, k =>
    match fields.lookup k with
    | some v => .ok v
    | none => .error (.keyError k)
  | _, _ => .error .typeError

/-- Python `==` between a modelled value and a string (equality across
types is `False`). -/
def Json.eqStr : Json → String → Bool
  | .str s, k => s == k
  | _, _ => false

/-- Contiguous-sublist test, used for Python substring membership. -/
def infixCheck (pat : List Char) : List Char → Bool
  | [] => pat.isEmpty
  | c :: cs => pat.isPrefixOf (c :: cs) || infixCheck pat cs

/-- Python `k in j` for a string `k`: key test on a dict, element test on a
list, substring test on a string, `TypeError` otherwise. -/
def Json.containsStr : Json → String → Except PyError Bool
  | .obj fields, k => .ok (fields.any (fun p => p.1 == k))
  | .arr es, k => .ok (es.any (fun e => e.eqStr k))
  | .str s, k => .ok (infixCheck k.data s.data)
  | _, _ => .error .typeError

/-- Python iteration `for x in j`: a list yields its elements, a string its
one-character strings, a dict its keys; `TypeError` otherwise. -/
def Json.iter : Json → Except PyError (List Json)
  | .arr es => .ok es
  | .str s => .ok (s.data.map (fun c => .str (String.mk [c])))
  | .obj fields => .ok (fields.map (fun p => .str p.1))
  | _ => .error .typeError

/-- Python `str.isspace` characters in the ASCII range (`' '`, `\t`, `\n`,
`\r`, `\x0b`, `\x0c`); non-ASCII unicode whitespace is outside the model. -/
def pyIsSpace (c : Char) : Bool :=
  c == ' ' || c == '\t' || c == '\n' || c == '\r' || c == '\x0b' || c == '\x0c'

/-- Python `str.strip()`: remove leading and trailing whitespace. -/
def pyStrip (s : String) : String :=
  String.mk (((s.data.dropWhile pyIsSpace).reverse.dropWhile pyIsSpace).reverse)

/-- The loop of `process_transcript`:
`for segment in ...: full_transcript += segment['text'] + " "`.
`segment['text']` can raise `KeyError`/`TypeError`, and `+ " "` raises
`TypeError` when the looked-up value is not a string. -/
def appendSegments : List Json → String → Except PyError String
  | [], acc => .ok acc
  | seg :: rest, acc =>
    match seg.getItem "text" with
    | .error e => .error e
    | .ok (.str s) => appendSegments rest (acc ++ s ++ " ")
    | .ok _ => .error .typeError

/-- `process_transcript(transcript_data)` (src/youtube_summarizer.py:26-37).
`none` models Python `None`.  The guard is
`if not transcript_data or 'transcripts' not in transcript_data`, then the
segment loop, then `.strip()` (modelled by `pyStrip`). -/
def process_transcript (transcript_data : Option Json) : Except PyError String :=
  match transcript_data with
  | none => .ok "No transcript available."
  | some j =>
    if !j.truthy then .ok "No transcript available."
    else
      match j.containsStr "transcripts" with
      | .error e => .error e
      | .ok false => .ok "No transcript available."
      | .ok true =>
        match j.getItem "transcripts" with
        | .error e => .error e
        | .ok ts =>
          match ts.iter with
          | .error e => .error e
          | .ok segs =>
            match appendSegments segs "" with
            | .error e => .error e
            | .ok s => .ok (pyStrip s)

/-- Observable actions of a run: a line passed to `print`, the HTTP GET to
the transcript-search endpoint, or the chat-completion call. -/
inductive Event where
  | printed (line : String)
  | fetchCall (video_id : String) (api_key : String)
  | chatCall (model : String) (messages : List (String × String)) (max_tokens : Nat)
             (api_key : String)
deriving DecidableEq, Repr

def Event.isChatCall : Event → Bool
  | .chatCall _ _ _ _ => true
  | _ => false

/-- What the transcript-search endpoint does on the one GET request
(src/youtube_summarizer.py:19-21): a success-status response with a JSON
body, or one of the `requests.exceptions.RequestException` causes the
`except` clause catches — `raise_for_status` on a non-success status, a
connection failure, or a timeout.  `detail` is the exception's string. -/
inductive FetchOutcome where
  | success (body : Json)
  | httpError (detail : String)
  | connectionError (detail : String)
  | timedOut (detail : String)

def FetchOutcome.isFailure : FetchOutcome → Bool
  | .success _ => false
  | _ => true

/-- The string form of the caught exception, interpolated into
`f"Error fetching transcript: {e}"`. -/
def FetchOutcome.exnStr : FetchOutcome → String
  | .success _ => ""
  | .httpError d => d
  | .connectionError d => d
  | .timedOut d => d

/-- `get_video_transcript(video_id, api_key)` (src/youtube_summarizer.py:7-24):
issue the GET; on success return the parsed JSON body, on any
`RequestException` print `Error fetching transcript: ...` and return `None`.
The function is total — no exception escapes the `try`/`except`. -/
def get_video_transcript (video_id api_key : String) (outcome : FetchOutcome) :
    List Event × Option Json :=
  match outcome with
  | .success body => ([.fetchCall video_id api_key], some body)
  | o => ([.fetchCall video_id api_key,
           .printed ("Error fetching transcript: " ++ o.exnStr)], none)

def systemPrompt : String :=
  "You are a helpful assistant that creates concise bullet point summaries of video transcripts."

/-- The fixed part of the user message; the transcript text is appended. -/
def userPromptPrefix : String :=
  "Please summarize the following YouTube video transcript into key bullet points, focusing on the main ideas and important details:\n\n"

/-- The chat-completion request `summarize_with_gpt4` constructs
(src/youtube_summarizer.py:46-53), as a `chatCall` event: model `gpt-4o`,
the two messages as (role, content) pairs, `max_tokens=500`. -/
def buildChatCall (transcript_text openai_api_key : String) : Event :=
  .chatCall "gpt-4o"
    [("system", systemPrompt), ("user", userPromptPrefix ++ transcript_text)]
    500 openai_api_key

/-- What the chat-completion endpoint does: return a response whose choices
carry the given message contents, or raise (any `Exception`; `message` is its
string form). -/
inductive ChatOutcome where
  | success (choiceContents : List String)
  | exn (message : String)

/-- `summarize_with_gpt4(transcript_text, openai_api_key)`
(src/youtube_summarizer.py:39-57): build the request, submit it, and return
`response.choices[0].message.content`; any exception inside the `try`
(including the `IndexError` when `choices` is empty, whose Python string is
"list index out of range") is caught, printed as
`Error generating summary: ...`, and replaced by the literal
`"Failed to generate summary."`. -/
def summarize_with_gpt4 (transcript_text openai_api_key : String)
    (outcome : ChatOutcome) : List Event × String :=
  let call := buildChatCall transcript_text openai_api_key
  match outcome with
  | .success (c :: _) => ([call], c)
  | .success [] =>
    ([call, .printed ("Error generating summary: list index out of range")],
     "Failed to generate summary.")
  | .exn msg =>
    ([call, .printed ("Error generating summary: " ++ msg)],
     "Failed to generate summary.")

/-- Python `or` on an optional string (`args.x or os.environ.get(Y)`):
the left operand when it is truthy (present and non-empty), otherwise the
right operand. -/
def pyOrStr (a b : Option String) : Option String :=
  match a with
  | some s => if s == "" then b else some s
  | none => b

/-- One input's three-tier resolution in `main`
(src/youtube_summarizer.py:68-79): `x = args.x or os.environ.get(Y)`
followed by `if not x: x = input(...)`.  `promptVal` is what `input()`
would return if reached. -/
def resolveInput (cli env : Option String) (promptVal : String) : String :=
  match pyOrStr cli env with
  | some s => if s == "" then promptVal else s
  | none => promptVal

/-- The ambient inputs of one invocation of `main`: the three optional CLI
arguments, the three optional environment variables, what `input()` would
return for each prompt, and what each remote endpoint would do. -/
structure MainInput where
  args_video_id : Option String
  args_searchapi_key : Option String
  args_openai_key : Option String
  env_youtube_video_id : Option String
  env_searchapi_key : Option String
  env_openai_api_key : Option String
  stdin_video_id : String
  stdin_searchapi_key : String
  stdin_openai_key : String
  fetch : FetchOutcome
  chat : ChatOutcome

def failLine : String :=
  "Failed to retrieve transcript. Please check the video ID and API key."

/-- `video_id = args.video_id or os.environ.get('YOUTUBE_VIDEO_ID')`,
then `input` if still falsy. -/
def resolvedVideoId (inp : MainInput) : String :=
  resolveInput inp.args_video_id inp.env_youtube_video_id inp.stdin_video_id

/-- `searchapi_key = args.searchapi_key or os.environ.get('SEARCHAPI_KEY')`,
then `input` if still falsy. -/
def resolvedSearchKey (inp : MainInput) : String :=
  resolveInput inp.args_searchapi_key inp.env_searchapi_key inp.stdin_searchapi_key

/-- `openai_key = args.openai_key or os.environ.get('OPENAI_API_KEY')`,
then `input` if still falsy. -/
def resolvedOpenaiKey (inp : MainInput) : String :=
  resolveInput inp.args_openai_key inp.env_openai_api_key inp.stdin_openai_key

/-- `main()` (src/youtube_summarizer.py:59-95) as the trace of events of one
invocation (the `input()` prompt strings themselves are not modelled, only
the values read).  `if transcript_data:` is Python truthiness, so a present
but falsy body (e.g. `{}`) takes the failure branch.  An uncaught exception
from `process_transcript` aborts the run (`.error`). -/
def mainRun (inp : MainInput) : Except PyError (List Event) :=
  let video_id := resolvedVideoId inp
  let searchapi_key := resolvedSearchKey inp
  let openai_key := resolvedOpenaiKey inp
  let fetchRes := get_video_transcript video_id searchapi_key inp.fetch
  let pre := Event.printed ("Fetching transcript for video ID: " ++ video_id ++ "...")
    :: fetchRes.1
  match fetchRes.2 with
  | some body =>
    if body.truthy then
      match process_transcript (some body) with
      | .error e => .error e
      | .ok full_transcript =>
        let sumRes := summarize_with_gpt4 full_transcript openai_key inp.chat
        .ok (pre ++
          [Event.printed "Transcript fetched successfully!",
           Event.printed "Generating summary..."] ++
          sumRes.1 ++
          [Event.printed "\n--- VIDEO SUMMARY ---\n",
           Event.printed sumRes.2,
           Event.printed "\n--------------------\n"])
    else
      .ok (pre ++ [Event.printed failLine])
  | none =>
    .ok (pre ++ [Event.printed failLine])

/-! ## Helper lemmas -/

/-- When the segments and texts correspond pointwise (each segment's
`['text']` lookup yields the string), the loop accumulates the texts,
each followed by one space, left to right. -/
theorem appendSegments_eq_foldl {segs : List Json} {texts : List String}
    (h : List.Forall₂ (fun seg t => Json.getItem seg "text" = Except.ok (Json.str t)) segs texts) :
    ∀ acc, appendSegments segs acc =
      Except.ok (texts.foldl (fun a t => a ++ t ++ " ") acc) := by
  induction h with
  | nil => intro acc; rfl
  | cons hst _ ih =>
    intro acc
    simp only [appendSegments, hst]
    exact ih _

/-- Evaluation of `process_transcript` on an object whose only field is
`transcripts` bound to a list: the guards pass and the result is the loop's
result, stripped. -/
theorem process_transcript_obj_arr (segs : List Json) :
    process_transcript (some (.obj [("transcripts", .arr segs)])) =
      match appendSegments segs "" with
      | .error e => .error e
      | .ok s => .ok (pyStrip s) := rfl

/-- On an object none of whose keys is `transcripts`, `process_transcript`
returns the sentinel. -/
theorem process_transcript_no_field (fields : List (String × Json))
    (h : ∀ p ∈ fields, p.1 ≠ "transcripts") :
    process_transcript (some (.obj fields)) = .ok "No transcript available." := by
  cases fields with
  | nil => rfl
  | cons p ps =>
    have hany : ((p :: ps).any (fun q => q.1 == "transcripts")) = false := by
      rw [List.any_eq_false]
      intro q hq
      simpa using h q hq
    simp [process_transcript, Json.truthy, Json.containsStr, hany]

/-- When every segment is a dict whose `text` entry, if any, is a string,
the loop hits the `KeyError "text"` branch exactly when some segment's
dict has no `text` key. -/
theorem appendSegments_keyError_iff {segs : List Json}
    (hseg : ∀ seg ∈ segs, ∃ fields, seg = Json.obj fields ∧
      (fields.lookup "text" = none ∨ ∃ s, fields.lookup "text" = some (Json.str s))) :
    ∀ acc, (appendSegments segs acc = .error (.keyError "text") ↔
      ∃ seg ∈ segs, ∃ fields, seg = Json.obj fields ∧ fields.lookup "text" = none) := by
  induction segs with
  | nil => intro acc; simp [appendSegments]
  | cons seg rest ih =>
    intro acc
    obtain ⟨fields, rfl, hcase⟩ := hseg _ (List.mem_cons_self _ _)
    rcases hcase with hnone | ⟨s, hsome⟩
    · simp only [appendSegments, Json.getItem, hnone]
      constructor
      · intro _
        exact ⟨.obj fields, List.mem_cons_self _ _, fields, rfl, hnone⟩
      · intro _
        trivial
    · have ih' := ih (fun sg hsg => hseg sg (List.mem_cons_of_mem _ hsg)) (acc ++ s ++ " ")
      simp only [appendSegments, Json.getItem, hsome]
      rw [ih']
      constructor
      · rintro ⟨sg, hsg, flds, rfl, hn⟩
        exact ⟨.obj flds, List.mem_cons_of_mem _ hsg, flds, rfl, hn⟩
      · rintro ⟨sg, hsg, flds, rfl, hn⟩
        rcases List.mem_cons.mp hsg with heq | hmem
        · have hf : flds = fields := by injection heq
          subst hf
          rw [hn] at hsome
          simp at hsome
        · exact ⟨.obj flds, hmem, flds, rfl, hn⟩

/-! ## Claims about the transcript assembler -/

/-- Claim C1: for every transcript response whose segment list is present and
whose every segment has a (string) text field, `process_transcript` returns
the segment texts concatenated in list order, each followed by a single
space, with leading and trailing whitespace removed; in particular on
`{"transcripts": [{"text":"Hello"},{"text":"world"}]}` it returns exactly
`"Hello world"`. -/
theorem assembly_joins_segment_texts (segs : List Json) (texts : List String)
    (h : List.Forall₂ (fun seg t => Json.getItem seg "text" = Except.ok (Json.str t)) segs texts) :
    process_transcript (some (.obj [("transcripts", .arr segs)])) =
      .ok (pyStrip (texts.foldl (fun a t => a ++ t ++ " ") "")) ∧
    process_transcript (some (.obj [("transcripts",
      .arr [.obj [("text", .str "Hello")], .obj [("text", .str "world")]])])) =
      .ok "Hello world" := by
  constructor
  · rw [process_transcript_obj_arr, appendSegments_eq_foldl h ""]
  · rfl

/-- Concrete instance of `assembly_joins_segment_texts`: the two-segment
Hello/world response. -/
theorem assembly_joins_segment_texts_witness :
    List.Forall₂ (fun seg t => Json.getItem seg "text" = Except.ok (Json.str t))
      [Json.obj [("text", Json.str "Hello")], Json.obj [("text", Json.str "world")]]
      ["Hello", "world"] ∧
    process_transcript (some (.obj [("transcripts",
      .arr [.obj [("text", .str "Hello")], .obj [("text", .str "world")]])])) =
      .ok (pyStrip (["Hello", "world"].foldl (fun a t => a ++ t ++ " ") "")) := by
  have hf : List.Forall₂ (fun seg t => Json.getItem seg "text" = Except.ok (Json.str t))
      [Json.obj [("text", Json.str "Hello")], Json.obj [("text", Json.str "world")]]
      ["Hello", "world"] := .cons rfl (.cons rfl .nil)
  exact ⟨hf, (assembly_joins_segment_texts _ _ hf).1⟩

/-- Claim C2: when the input is `None` or an object without a `transcripts`
key, `process_transcript` returns exactly `"No transcript available."` and
raises nothing (the result is `.ok`, not `.error`). -/
theorem assembler_sentinel_on_missing_field (fields : List (String × Json))
    (h : ∀ p ∈ fields, p.1 ≠ "transcripts") :
    process_transcript none = .ok "No transcript available." ∧
    process_transcript (some (.obj fields)) = .ok "No transcript available." :=
  ⟨rfl, process_transcript_no_field fields h⟩

/-- Concrete instance of `assembler_sentinel_on_missing_field`: an object
with a single unrelated key. -/
theorem assembler_sentinel_on_missing_field_witness :
    (∀ p ∈ [("title", Json.str "t")], p.1 ≠ "transcripts") ∧
    (process_transcript none = .ok "No transcript available." ∧
     process_transcript (some (.obj [("title", Json.str "t")])) =
       .ok "No transcript available.") := by
  have h : ∀ p ∈ [("title", Json.str "t")], p.1 ≠ "transcripts" := by decide
  exact ⟨h, assembler_sentinel_on_missing_field _ h⟩

/-- Claim C8: over inputs whose segments are dicts whose `text` entry, when
present, is a string, `process_transcript` raises `KeyError 'text'` exactly
when some segment lacks the `text` key (no defensive default). -/
theorem segment_missing_text_key_error (segs : List Json)
    (hseg : ∀ seg ∈ segs, ∃ fields, seg = Json.obj fields ∧
      (fields.lookup "text" = none ∨ ∃ s, fields.lookup "text" = some (Json.str s))) :
    (process_transcript (some (.obj [("transcripts", .arr segs)])) =
        .error (.keyError "text")) ↔
      ∃ seg ∈ segs, ∃ fields, seg = Json.obj fields ∧ fields.lookup "text" = none := by
  rw [process_transcript_obj_arr]
  have h := appendSegments_keyError_iff hseg ""
  cases happ : appendSegments segs "" with
  | error e =>
    rw [happ] at h
    exact h
  | ok s =>
    rw [happ] at h
    constructor
    · intro hco
      exact Except.noConfusion hco
    · intro hex
      exact Except.noConfusion (h.mpr hex)

/-- Concrete instance of `segment_missing_text_key_error`: a one-segment
list whose segment has only a `title` key, producing `KeyError 'text'`. -/
theorem segment_missing_text_key_error_witness :
    process_transcript (some (.obj [("transcripts",
      .arr [Json.obj [("title", Json.str "t")]])])) = .error (.keyError "text") :=
  (segment_missing_text_key_error [Json.obj [("title", Json.str "t")]]
    (fun seg hs => ⟨[("title", Json.str "t")],
      by rw [List.mem_singleton] at hs; rw [hs], Or.inl rfl⟩)).mpr
    ⟨Json.obj [("title", Json.str "t")], List.mem_singleton.mpr rfl,
     [("title", Json.str "t")], rfl, rfl⟩

/-! ## Claims about the fetcher and the summarizer -/

/-- On any caught `RequestException`, `get_video_transcript` prints the
error line and returns `None`. -/
theorem get_video_transcript_failure_eq (v k : String) (o : FetchOutcome)
    (h : o.isFailure = true) :
    get_video_transcript v k o =
      ([.fetchCall v k, .printed ("Error fetching transcript: " ++ o.exnStr)], none) := by
  cases o with
  | success body => simp [FetchOutcome.isFailure] at h
  | httpError d => rfl
  | connectionError d => rfl
  | timedOut d => rfl

/-- Claim C7: on every network error, timeout, or non-success HTTP status,
`get_video_transcript` prints `Error fetching transcript: ...` with the
underlying cause appended, returns `None`, and (being total in the model,
the `try`/`except` catching every `RequestException`) lets no exception
escape. -/
theorem fetch_error_reports_and_returns_none (v k : String) (o : FetchOutcome)
    (h : o.isFailure = true) :
    get_video_transcript v k o =
      ([.fetchCall v k, .printed ("Error fetching transcript: " ++ o.exnStr)], none) ∧
    ∃ pre, "Error fetching transcript: " ++ o.exnStr = pre ++ o.exnStr :=
  ⟨get_video_transcript_failure_eq v k o h, "Error fetching transcript: ", rfl⟩

/-- Concrete instance of `fetch_error_reports_and_returns_none`: an HTTP 404
from `raise_for_status`. -/
theorem fetch_error_reports_and_returns_none_witness :
    (FetchOutcome.httpError "404 Client Error").isFailure = true ∧
    (get_video_transcript "vid" "key" (.httpError "404 Client Error") =
      ([.fetchCall "vid" "key",
        .printed ("Error fetching transcript: " ++
          (FetchOutcome.httpError "404 Client Error").exnStr)], none) ∧
     ∃ pre, "Error fetching transcript: " ++
         (FetchOutcome.httpError "404 Client Error").exnStr =
       pre ++ (FetchOutcome.httpError "404 Client Error").exnStr) :=
  ⟨rfl, fetch_error_reports_and_returns_none "vid" "key" (.httpError "404 Client Error") rfl⟩

/-- Whatever the endpoint does, the first event of `summarize_with_gpt4` is
always the one chat-completion call built from the transcript text. -/
theorem summarize_events_head (t k : String) (o : ChatOutcome) :
    ∃ rest, (summarize_with_gpt4 t k o).1 = buildChatCall t k :: rest := by
  cases o with
  | success cs => cases cs with
    | nil => exact ⟨_, rfl⟩
    | cons c cs => exact ⟨_, rfl⟩
  | exn msg => exact ⟨_, rfl⟩

/-- Claim C9: for every transcript text and key, the request submitted by
`summarize_with_gpt4` has exactly two messages — the fixed system message,
whose content contains the persona phrase, and one user message embedding
the transcript into the fixed instruction template — with `max_tokens`
exactly 500 and model `gpt-4o`. -/
theorem chat_request_shape (t k : String) (o : ChatOutcome) :
    (∃ rest, (summarize_with_gpt4 t k o).1 = buildChatCall t k :: rest) ∧
    buildChatCall t k = .chatCall "gpt-4o"
      [("system", systemPrompt), ("user", userPromptPrefix ++ t)] 500 k ∧
    [("system", systemPrompt), ("user", userPromptPrefix ++ t)].length = 2 ∧
    infixCheck "creates concise bullet point summaries of video transcripts".data
      systemPrompt.data = true :=
  ⟨summarize_events_head t k o, rfl, rfl, by decide⟩

/-! ## Claims about the orchestrator -/

/-- Trace of `main` when the fetch succeeds with a truthy body and the
assembler returns normally: the progress lines, the summarizer's events, and
the delimited summary block. -/
theorem mainRun_success_eq (inp : MainInput) (body : Json) (ft : String)
    (hf : inp.fetch = .success body) (ht : body.truthy = true)
    (hp : process_transcript (some body) = .ok ft) :
    mainRun inp = .ok (
      [Event.printed ("Fetching transcript for video ID: " ++ resolvedVideoId inp ++ "..."),
       Event.fetchCall (resolvedVideoId inp) (resolvedSearchKey inp),
       Event.printed "Transcript fetched successfully!",
       Event.printed "Generating summary..."] ++
      (summarize_with_gpt4 ft (resolvedOpenaiKey inp) inp.chat).1 ++
      [Event.printed "\n--- VIDEO SUMMARY ---\n",
       Event.printed (summarize_with_gpt4 ft (resolvedOpenaiKey inp) inp.chat).2,
       Event.printed "\n--------------------\n"]) := by
  unfold mainRun
  rw [hf]
  simp [get_video_transcript, ht, hp]

/-- Trace of `main` when the fetch fails: the failure line, no further
events. -/
theorem mainRun_failure_eq (inp : MainInput) (h : inp.fetch.isFailure = true) :
    mainRun inp = .ok
      [Event.printed ("Fetching transcript for video ID: " ++ resolvedVideoId inp ++ "..."),
       Event.fetchCall (resolvedVideoId inp) (resolvedSearchKey inp),
       Event.printed ("Error fetching transcript: " ++ inp.fetch.exnStr),
       Event.printed failLine] := by
  unfold mainRun
  cases hfo : inp.fetch with
  | success body => rw [hfo] at h; simp [FetchOutcome.isFailure] at h
  | httpError d => simp [get_video_transcript, FetchOutcome.exnStr]
  | connectionError d => simp [get_video_transcript, FetchOutcome.exnStr]
  | timedOut d => simp [get_video_transcript, FetchOutcome.exnStr]

/-- Claim C3: whenever the transcript fetch fails (e.g. HTTP 404), `main`
prints the failure line and the trace contains no chat-completion call: the
summarizer is never invoked. -/
theorem fetch_failure_skips_summarizer (inp : MainInput)
    (h : inp.fetch.isFailure = true) :
    ∃ events, mainRun inp = .ok events ∧
      Event.printed failLine ∈ events ∧
      events.all (fun e => !e.isChatCall) = true := by
  refine ⟨_, mainRun_failure_eq inp h, ?_, ?_⟩
  · simp
  · simp [Event.isChatCall]

/-- Concrete instance of `fetch_failure_skips_summarizer`: a 404 from the
transcript endpoint. -/
theorem fetch_failure_skips_summarizer_witness :
    (FetchOutcome.httpError "404 Client Error").isFailure = true ∧
    ∃ events,
      mainRun ⟨some "v", some "s", some "o", none, none, none, "", "", "",
        .httpError "404 Client Error", .success ["sum"]⟩ = .ok events ∧
      Event.printed failLine ∈ events ∧
      events.all (fun e => !e.isChatCall) = true :=
  ⟨rfl, fetch_failure_skips_summarizer _ rfl⟩

/-- Claim C5: when the summarization call raises, `summarize_with_gpt4`
catches it, prints the error, and returns exactly
`"Failed to generate summary."`, and `main` still prints that string inside
the delimited summary block. -/
theorem summarizer_exception_placeholder (inp : MainInput) (body : Json)
    (ft msg : String) (hf : inp.fetch = .success body) (ht : body.truthy = true)
    (hp : process_transcript (some body) = .ok ft) (hc : inp.chat = .exn msg) :
    summarize_with_gpt4 ft (resolvedOpenaiKey inp) inp.chat =
      ([buildChatCall ft (resolvedOpenaiKey inp),
        .printed ("Error generating summary: " ++ msg)],
       "Failed to generate summary.") ∧
    ∃ pre, mainRun inp = .ok (pre ++
      [Event.printed "\n--- VIDEO SUMMARY ---\n",
       Event.printed "Failed to generate summary.",
       Event.printed "\n--------------------\n"]) := by
  have hs : summarize_with_gpt4 ft (resolvedOpenaiKey inp) inp.chat =
      ([buildChatCall ft (resolvedOpenaiKey inp),
        .printed ("Error generating summary: " ++ msg)],
       "Failed to generate summary.") := by rw [hc]; rfl
  refine ⟨hs,
    [Event.printed ("Fetching transcript for video ID: " ++ resolvedVideoId inp ++ "..."),
     Event.fetchCall (resolvedVideoId inp) (resolvedSearchKey inp),
     Event.printed "Transcript fetched successfully!",
     Event.printed "Generating summary...",
     buildChatCall ft (resolvedOpenaiKey inp),
     Event.printed ("Error generating summary: " ++ msg)], ?_⟩
  rw [mainRun_success_eq inp body ft hf ht hp, hs]
  simp

/-- Concrete instance of `summarizer_exception_placeholder`: a one-segment
transcript and a raising chat endpoint. -/
theorem summarizer_exception_placeholder_witness :
    ∃ pre, mainRun ⟨some "v", some "s", some "o", none, none, none, "", "", "",
        .success (.obj [("transcripts", .arr [.obj [("text", .str "hi")]])]),
        .exn "boom"⟩ = .ok (pre ++
      [Event.printed "\n--- VIDEO SUMMARY ---\n",
       Event.printed "Failed to generate summary.",
       Event.printed "\n--------------------\n"]) :=
  (summarizer_exception_placeholder
    ⟨some "v", some "s", some "o", none, none, none, "", "", "",
      .success (.obj [("transcripts", .arr [.obj [("text", .str "hi")]])]), .exn "boom"⟩
    (.obj [("transcripts", .arr [.obj [("text", .str "hi")]])])
    "hi" "boom" rfl rfl rfl rfl).2

/-- Claim C10: on `{"transcripts": []}` the assembler returns the empty
string (not the sentinel), and the orchestrator goes on to call the
summarizer on that empty transcript. -/
theorem empty_segment_list_gives_empty_transcript (inp : MainInput)
    (hf : inp.fetch = .success (.obj [("transcripts", .arr [])])) :
    process_transcript (some (.obj [("transcripts", .arr [])])) = .ok "" ∧
    ∃ events, mainRun inp = .ok events ∧
      buildChatCall "" (resolvedOpenaiKey inp) ∈ events := by
  have hp : process_transcript (some (.obj [("transcripts", .arr [])])) = .ok "" := rfl
  refine ⟨hp, ?_⟩
  obtain ⟨rest, hrest⟩ := summarize_events_head "" (resolvedOpenaiKey inp) inp.chat
  refine ⟨_, mainRun_success_eq inp _ "" hf rfl hp, ?_⟩
  simp [hrest]

/-- Concrete instance of `empty_segment_list_gives_empty_transcript`. -/
theorem empty_segment_list_gives_empty_transcript_witness :
    process_transcript (some (.obj [("transcripts", .arr [])])) = .ok "" ∧
    ∃ events, mainRun ⟨some "v", some "s", some "o", none, none, none, "", "", "",
        .success (.obj [("transcripts", .arr [])]), .success ["sum"]⟩ = .ok events ∧
      buildChatCall ""
        (resolvedOpenaiKey ⟨some "v", some "s", some "o", none, none, none, "", "", "",
          .success (.obj [("transcripts", .arr [])]), .success ["sum"]⟩) ∈ events :=
  empty_segment_list_gives_empty_transcript
    ⟨some "v", some "s", some "o", none, none, none, "", "", "",
      .success (.obj [("transcripts", .arr [])]), .success ["sum"]⟩ rfl

/-- Counterexample to claim C4 as stated: the fetch succeeds with `{}` — an
object with no `transcripts` field — yet `main`'s truthiness test
`if transcript_data:` treats the falsy body as a failed fetch: the run ends
with the failure line and no chat call is ever issued, even though the
assembler would have produced the placeholder.  Also, a present but
malformed `transcripts` field (here a number) makes the assembler raise
`TypeError` rather than yield the placeholder. -/
theorem falsy_body_skips_placeholder_cex :
    mainRun ⟨some "v", some "s", some "o", none, none, none, "", "", "",
        .success (.obj []), .success ["sum"]⟩ =
      .ok [Event.printed "Fetching transcript for video ID: v...",
           Event.fetchCall "v" "s",
           Event.printed failLine] ∧
    [Event.printed "Fetching transcript for video ID: v...",
     Event.fetchCall "v" "s",
     Event.printed failLine].all (fun e => !e.isChatCall) = true ∧
    process_transcript (some (.obj [])) = .ok "No transcript available." ∧
    process_transcript (some (.obj [("transcripts", .num 5)])) = .error .typeError :=
  ⟨rfl, rfl, rfl, rfl⟩

/-- Claim C4 as amended: for every *truthy* (non-empty) fetch response
object lacking the `transcripts` field, the assembler yields the
`"No transcript available."` placeholder and the pipeline proceeds to invoke
the summarizer on it. -/
theorem truthy_missing_field_uses_placeholder (inp : MainInput)
    (fields : List (String × Json)) (hf : inp.fetch = .success (.obj fields))
    (hne : fields ≠ []) (hmiss : ∀ p ∈ fields, p.1 ≠ "transcripts") :
    process_transcript (some (.obj fields)) = .ok "No transcript available." ∧
    ∃ events, mainRun inp = .ok events ∧
      buildChatCall "No transcript available." (resolvedOpenaiKey inp) ∈ events := by
  have hp := process_transcript_no_field fields hmiss
  have ht : (Json.obj fields).truthy = true := by
    cases fields with
    | nil => exact absurd rfl hne
    | cons p ps => rfl
  refine ⟨hp, ?_⟩
  obtain ⟨rest, hrest⟩ :=
    summarize_events_head "No transcript available." (resolvedOpenaiKey inp) inp.chat
  refine ⟨_, mainRun_success_eq inp _ _ hf ht hp, ?_⟩
  simp [hrest]

/-- Concrete instance of `truthy_missing_field_uses_placeholder`: the body
`{"title": "t"}`. -/
theorem truthy_missing_field_uses_placeholder_witness :
    process_transcript (some (.obj [("title", Json.str "t")])) =
      .ok "No transcript available." ∧
    ∃ events, mainRun ⟨some "v", some "s", some "o", none, none, none, "", "", "",
        .success (.obj [("title", Json.str "t")]), .success ["sum"]⟩ = .ok events ∧
      buildChatCall "No transcript available."
        (resolvedOpenaiKey ⟨some "v", some "s", some "o", none, none, none, "", "", "",
          .success (.obj [("title", Json.str "t")]), .success ["sum"]⟩) ∈ events :=
  truthy_missing_field_uses_placeholder
    ⟨some "v", some "s", some "o", none, none, none, "", "", "",
      .success (.obj [("title", Json.str "t")]), .success ["sum"]⟩
    [("title", Json.str "t")] rfl (List.cons_ne_nil _ _) (by decide)

/-- Counterexample to claim C6 as stated: with the CLI value present but
empty (`--video_id=`) and the environment variable set, Python's `or`
treats the empty CLI string as falsy, so the environment value — not the
CLI value — is used. -/
theorem empty_cli_value_falls_to_env_cex :
    resolveInput (some "") (some "ENVKEY") "PROMPT" = "ENVKEY" ∧
    ("ENVKEY" : String) ≠ "" :=
  ⟨rfl, by decide⟩

/-- Claim C6 as amended: for each logical input, a *non-empty* CLI value
overrides the environment variable (and suffices alone); an empty CLI value
behaves exactly like an absent one; a non-empty environment value is used
when the CLI value is unset; and the interactive prompt is used only when
both are unset or empty. -/
theorem resolution_precedence (c e p : String) (hc : c ≠ "") :
    resolveInput (some c) (some e) p = c ∧
    resolveInput (some c) none p = c ∧
    resolveInput (some "") (some e) p = resolveInput none (some e) p ∧
    (e ≠ "" → resolveInput none (some e) p = e) ∧
    resolveInput none (some "") p = p ∧
    resolveInput none none p = p := by
  have hb : (c == "") = false := beq_eq_false_iff_ne.mpr hc
  refine ⟨?_, ?_, rfl, ?_, rfl, rfl⟩
  · simp [resolveInput, pyOrStr, hb]
  · simp [resolveInput, pyOrStr, hb]
  · intro he
    have hbe : (e == "") = false := beq_eq_false_iff_ne.mpr he
    simp [resolveInput, pyOrStr, hbe]

/-- Concrete instance of `resolution_precedence`. -/
theorem resolution_precedence_witness :
    ("A" : String) ≠ "" ∧
    (resolveInput (some "A") (some "B") "C" = "A" ∧
     resolveInput (some "A") none "C" = "A" ∧
     resolveInput (some "") (some "B") "C" = resolveInput none (some "B") "C" ∧
     (("B" : String) ≠ "" → resolveInput none (some "B") "C" = "B") ∧
     resolveInput none (some "") "C" = "C" ∧
     resolveInput none none "C" = "C") :=
  ⟨by decide, resolution_precedence "A" "B" "C" (by decide)⟩

end YoutubeSummarizer
